import Mathlib

set_option maxHeartbeats 1000000

/-!
Shallow embedding of the sequelize-handlers repository.

The development models the code of `src/index.js` (query builder, output
formatter, inline route handlers, controller factory) and of the handlers
module provided as `src/unnamed/part_000` (named `LibHandlers` below).
Storage calls are represented by explicit oracles for their outcomes plus a
trace of the calls a handler issues, so that properties of the form
"responds before any storage call" are statable.  JavaScript values that
flow through request parameters and bodies are modelled by `JsVal`;
JavaScript loose equality (the `!=` in the primary-key guard) by `looseEq`.
-/

/-- JavaScript values appearing in path parameters and JSON bodies:
strings, (integer) numbers, and `undefined`. -/
inductive JsVal where
  | str (s : String)
  | num (n : Int)
  | undef
deriving DecidableEq

/-- Decimal digit accumulator used to model the JavaScript `ToNumber`
coercion on digit strings. -/
def decValue : List Char → Nat → Option Nat
  | [], acc => some acc
  | c :: cs, acc =>
    if c.isDigit then decValue cs (acc * 10 + (c.toNat - 48)) else none

/-- Model of the JavaScript `ToNumber` coercion on the string shapes that
reach the primary-key guard: the empty string coerces to 0, a string of
decimal digits to its value, anything else to NaN (`none`). -/
def strToInt (s : String) : Option Int :=
  match s.data with
  | [] => some 0
  | c :: cs => (decValue (c :: cs) 0).map Int.ofNat

/-- JavaScript loose equality (`==` / the negation used by `!=`) restricted
to the modelled value shapes.  A string and a number compare equal when the
string coerces to that number; `undefined` is loosely equal only to itself
among the modelled values. -/
def looseEq : JsVal → JsVal → Bool
  | .str a, .str b => a == b
  | .num a, .num b => a == b
  | .str a, .num b => strToInt a == some b
  | .num a, .str b => some a == strToInt b
  | .undef, .undef => true
  | _, _ => false

/-- The value of the `attributes` query parameter as delivered by the query
string parser: either a plain string (which has a `split` method) or a
non-string shape (array or object) on which calling `split` throws. -/
inductive AttrVal where
  | vstr (s : String)
  | varr (items : List String)
  | vobj (fields : List (String × String))
deriving DecidableEq

/-- JavaScript truthiness of an `attributes` value: only the empty string
is falsy among the modelled shapes (arrays and objects are always truthy). -/
def attrTruthyVal : AttrVal → Bool
  | .vstr s => s != ""
  | .varr _ => true
  | .vobj _ => true

/-- Model of the JavaScript `split` with separator a comma, on the
character list of the receiver. -/
def splitCommaAux : List Char → List Char → List String
  | [], acc => [String.mk acc.reverse]
  | c :: cs, acc =>
    if c = ',' then String.mk acc.reverse :: splitCommaAux cs []
    else splitCommaAux cs (c :: acc)

/-- JavaScript `s.split(",")` on a string. -/
def splitComma (s : String) : List String := splitCommaAux s.data []

/-- The `req.query.attributes.split(",")` call of `buildWhere`
(src/index.js line 74): it yields the comma-split list on a string and
throws (`none`) on any non-string value. -/
def trySplit : AttrVal → Option AttrVal
  | .vstr s => some (.varr (splitComma s))
  | _ => none

/-- Property lookup on a JavaScript object modelled as an association
list: the first binding of the key, if any. -/
def lookupStr {α : Type _} : List (String × α) → String → Option α
  | [], _ => none
  | (k₀, v₀) :: rest, k => if k₀ = k then some v₀ else lookupStr rest k

/-- Property assignment on a JavaScript object modelled as an association
list: an existing key keeps its position and gets the new value, a new key
is appended (JavaScript object insertion order). -/
def objSet {α : Type _} : List (String × α) → String → α → List (String × α)
  | [], k, v => [(k, v)]
  | (k₀, v₀) :: rest, k, v =>
    if k₀ = k then (k, v) :: rest else (k₀, v₀) :: objSet rest k v

/-- Field access on a JavaScript record object: a missing field reads as
`undefined`. -/
def jsField (record : List (String × JsVal)) (k : String) : JsVal :=
  (lookupStr record k).getD JsVal.undef

/-- Reading `req.params.id` as a JavaScript value: an absent path
parameter is `undefined`. -/
def jsOfParam : Option String → JsVal
  | some s => .str s
  | none => JsVal.undef

/-- A single condition in the `where` map of a query descriptor: an
equality constraint, a case-sensitive pattern match (`$like`), or a
case-insensitive one (`$iLike`). -/
inductive WhereCond where
  | eq (v : String)
  | like (pattern : String)
  | iLike (pattern : String)
deriving DecidableEq

/-- The query-string surface consumed by `buildWhere`: `limit`, `offset`,
`filter[field]`, `search[field]` and `attributes`.  An absent `filter` or
`search` object behaves exactly like an empty one (the `forEach` over its
keys is a no-op), so both are modelled as the empty list. -/
structure QueryParams where
  limit : Option String
  offset : Option String
  filter : List (String × String)
  search : List (String × String)
  attributes : Option AttrVal
deriving DecidableEq

/-- An HTTP request as the handlers see it: `req.params.id`, the parsed
query string and the parsed JSON body `{ modelName: { fields } }`. -/
structure Req where
  paramsId : Option String
  query : QueryParams
  body : List (String × List (String × JsVal))
deriving DecidableEq

/-- The query descriptor built by `buildWhere` (src/index.js lines 22-27):
a `where` map, the eager-load list, pagination, the write-return flag and
the attribute projection. -/
structure Query where
  whereConds : List (String × WhereCond)
  includeRels : List String
  limit : Option JsVal
  offset : Option String
  returning : Bool
  attributes : Option AttrVal
deriving DecidableEq

/-- The `handlers` configuration map enabling each route group. -/
structure HandlerFlags where
  get : Bool
  put : Bool
  post : Bool
  delete : Bool
deriving DecidableEq

/-- The merged controller configuration (src/index.js lines 117-136).  The
`hooks.beforeQuery` callback is modelled as an optional function from the
query descriptor and request to the adjusted descriptor; the presence test
`options.hooks && typeof options.hooks.beforeQuery === 'function'` is
folded into the `Option`.  The other hooks (`afterCreate`, `beforeUpdate`,
`afterUpdate`) only produce caller-side effects and never change the
response, so they are elided from the model. -/
structure Options where
  allowChangingPrimaryKey : Bool
  includeRelationsInGetAll : Bool
  disableBodyParser : Bool
  overrideOutputName : Option String
  limit : Option Int
  restrictedFields : List String
  relationships : List String
  handlers : HandlerFlags
  useLike : Bool
  hooksBeforeQuery : Option (Query → Req → Query)

/-- The external data model: its name (envelope and body key), the name of
its primary-key field (`undefined` when the model has none), the
`instanceof Sequelize.Model` test, and the storage dialect name. -/
structure Model where
  name : String
  primaryKeyField : Option String
  isSequelizeModel : Bool
  dialect : Option String
deriving DecidableEq

/-- HTTP methods distinguished by `buildWhere`. -/
inductive Method where
  | GET
  | PUT
  | POST
  | PATCH
  | DELETE
deriving DecidableEq

/-- JavaScript truthiness of an optional string (`undefined` and the empty
string are falsy). -/
def jsTruthyStr : Option String → Bool
  | none => false
  | some s => s != ""

/-- JavaScript truthiness of an optional number (`undefined` and 0 are
falsy). -/
def jsTruthyNum : Option Int → Bool
  | none => false
  | some n => n != 0

/-- The initial query descriptor of `buildWhere` (src/index.js lines
22-27): empty `where`, `include` set to the configured relationships, no
pagination. -/
def initQuery (options : Options) : Query :=
  { whereConds := []
    includeRels := options.relationships
    limit := none
    offset := none
    returning := false
    attributes := none }

/-- Lines 29-31: if a path identifier is present (and truthy), constrain
`where.id` to it. -/
def applyIdWhere (req : Req) (q : Query) : Query :=
  if jsTruthyStr req.paramsId then
    { q with whereConds := objSet q.whereConds "id" (.eq (req.paramsId.getD "")) }
  else q

/-- Lines 42-46: `limit` from the query string, falling back to the
configured default. -/
def applyLimit (req : Req) (options : Options) (q : Query) : Query :=
  if jsTruthyStr req.query.limit then
    { q with limit := req.query.limit.map JsVal.str }
  else if jsTruthyNum options.limit then
    { q with limit := options.limit.map JsVal.num }
  else q

/-- Lines 48-50: `offset` from the query string. -/
def applyOffset (req : Req) (q : Query) : Query :=
  if jsTruthyStr req.query.offset then
    { q with offset := req.query.offset }
  else q

/-- Lines 52-56: each `filter[field]=value` becomes an equality constraint. -/
def applyFilter (req : Req) (q : Query) : Query :=
  { q with
    whereConds :=
      req.query.filter.foldl (fun acc p => objSet acc p.1 (WhereCond.eq p.2)) q.whereConds }

/-- Lines 60-68: the pattern condition for one `search` value, as selected
by `options.useLike === true`. -/
def searchCond (options : Options) (v : String) : WhereCond :=
  if options.useLike = true then .like ("%" ++ v ++ "%")
  else .iLike ("%" ++ v ++ "%")

/-- Lines 58-70: each `search[field]=value` becomes a pattern-match
constraint. -/
def applySearch (req : Req) (options : Options) (q : Query) : Query :=
  { q with
    whereConds :=
      req.query.search.foldl (fun acc p => objSet acc p.1 (searchCond options p.2)) q.whereConds }

/-- Lines 72-80: if `attributes` is (truthy and) present, the code tries
`req.query.attributes.split(",")`, assigning the result back into
`req.query.attributes`; a thrown split (non-string value) is swallowed and
leaves the request value in place.  Either way `query.attributes` is then
assigned the current `req.query.attributes`.  Both the updated descriptor
and the (possibly mutated) request are returned. -/
def applyAttributes (req : Req) (q : Query) : Query × Req :=
  match req.query.attributes with
  | some v =>
    if attrTruthyVal v then
      let v' := (trySplit v).getD v
      ({ q with attributes := some v' },
       { req with query := { req.query with attributes := some v' } })
    else (q, req)
  | none => (q, req)

/-- The GET-specific block of `buildWhere` (lines 41-81), in source order. -/
def applyGet (req : Req) (options : Options) (q : Query) : Query × Req :=
  applyAttributes req (applySearch req options (applyFilter req (applyOffset req (applyLimit req options q))))

/-- Lines 83-85: invoke the optional `beforeQuery` hook on the descriptor
and request. -/
def applyHook (options : Options) (q : Query) (req : Req) : Query :=
  match options.hooksBeforeQuery with
  | some h => h q req
  | none => q

/-- The query builder `buildWhere` (src/index.js lines 21-88).  Besides the
descriptor it returns the request as left behind by the builder, which
captures the in-place mutation of `req.query.attributes` at line 74. -/
def buildWhere (method : Method) (req : Req) (options : Options) : Query × Req :=
  let query := initQuery options
  let query := applyIdWhere req query
  let query := if method = .POST then { query with returning := true } else query
  let query := if method = .DELETE then { query with limit := some (.num 1) } else query
  let getRes := if method = .GET then applyGet req options query else (query, req)
  (applyHook options getRes.1 getRes.2, getRes.2)

/-- A stored record, as an object of fields. -/
structure Record where
  fields : List (String × JsVal)
deriving DecidableEq

/-- A single result or a result collection, distinguished like
`Array.isArray` does in `formatOutput`. -/
inductive Results where
  | one (r : Record)
  | many (rs : List Record)
deriving DecidableEq

/-- One entry of a response `errors` array: a message and optionally the
offending field. -/
structure ErrEntry where
  message : String
  field : Option String
deriving DecidableEq

/-- A JSON response body: a single-key envelope, an `errors` array, or the
`{status: 'ok'}` acknowledgement of delete. -/
inductive Body where
  | envelope (key : String) (results : Results)
  | errors (entries : List ErrEntry)
  | statusOk
deriving DecidableEq

/-- An HTTP response: status code and JSON body. -/
structure Response where
  status : Nat
  body : Body
deriving DecidableEq

/-- The `errors` array of a body (empty for non-error bodies). -/
def bodyErrors : Body → List ErrEntry
  | .errors es => es
  | _ => []

/-- The output formatter (src/index.js lines 90-107): a single-key
envelope whose key is the override name if configured, else the model
name, pluralized exactly when the results are a collection.  The external
`pluralize` helper is an explicit parameter. -/
def formatOutput (pluralize : String → String) (results : Results) (model : Model)
    (options : Options) : String × Results :=
  match options.overrideOutputName with
  | some oname =>
    match results with
    | .many _ => (pluralize oname, results)
    | .one _ => (oname, results)
  | none =>
    match results with
    | .many _ => (pluralize model.name, results)
    | .one _ => (model.name, results)

/-- One violation inside a storage validation or unique-constraint error,
carrying `message` and `path`. -/
structure Violation where
  message : String
  path : String
deriving DecidableEq

/-- The storage-error shapes distinguished by the catch blocks: the
`errors.notFound` sentinel, the named Sequelize error kinds (with their
violation lists where applicable), and any other error. -/
inductive StorageError where
  | notFoundSentinel
  | validation (message : String) (violations : List Violation)
  | unique (message : String) (violations : List Violation)
  | foreignKey (message : String)
  | database (message : String)
  | other (message : String)
deriving DecidableEq

/-- The `message` property of a storage error. -/
def errMessage : StorageError → String
  | .notFoundSentinel => "record not found"
  | .validation m _ => m
  | .unique m _ => m
  | .foreignKey m => m
  | .database m => m
  | .other m => m

/-- Mapping one violation to a response entry, as done by the 422 branches
(`{message: x.message, field: x.path}`). -/
def violationEntry (x : Violation) : ErrEntry :=
  { message := x.message, field := some x.path }

/-- Outcome of a storage call as resolved or rejected by the storage
layer. -/
inductive StorageResult (α : Type) where
  | ok (value : α)
  | fail (e : StorageError)
deriving DecidableEq

/-- A storage call issued by a handler, recorded in order. -/
inductive StorageCall where
  | findOne (q : Query)
  | findAll (q : Query)
  | create (input : List (String × JsVal)) (q : Query)
  | destroy (q : Query)
  | save (r : Record)
deriving DecidableEq

/-- Applying each supplied body field to the in-memory record
(`result.set(field, ...)` over `Object.keys`). -/
def applyFields (r : Record) (input : List (String × JsVal)) : Record :=
  ⟨input.foldl (fun acc p => objSet acc p.1 p.2) r.fields⟩

/-- The catch block of the get-one handler (src/index.js lines 182-189):
the not-found sentinel maps to 404, everything else to a generic 500. -/
def getCatch : StorageError → Response
  | .notFoundSentinel => ⟨404, .errors [⟨"record not found", none⟩]⟩
  | e => ⟨500, .errors [⟨errMessage e, none⟩]⟩

/-- The catch block of the create handler (src/index.js lines 202-219):
validation and unique-constraint errors map to 422 with one entry per
violation, everything else to a generic 500. -/
def createCatch : StorageError → Response
  | .validation _ vs => ⟨422, .errors (vs.map violationEntry)⟩
  | .unique _ vs => ⟨422, .errors (vs.map violationEntry)⟩
  | e => ⟨500, .errors [⟨errMessage e, none⟩]⟩

/-- The catch block of the update handler (src/index.js lines 263-287):
validation and unique-constraint errors map to 422 per violation, database
errors to 422 with the message, the not-found sentinel to 404, everything
else to 500. -/
def putCatch : StorageError → Response
  | .validation _ vs => ⟨422, .errors (vs.map violationEntry)⟩
  | .unique _ vs => ⟨422, .errors (vs.map violationEntry)⟩
  | .database m => ⟨422, .errors [⟨m, none⟩]⟩
  | .notFoundSentinel => ⟨404, .errors [⟨"record not found", none⟩]⟩
  | e => ⟨500, .errors [⟨errMessage e, none⟩]⟩

/-- The catch block of the delete handler (src/index.js lines 300-311):
foreign-key errors map to 400 with a fixed message, the not-found sentinel
to 404, everything else to 500. -/
def deleteCatch : StorageError → Response
  | .foreignKey _ => ⟨400, .errors [⟨"foreign key constraint error", none⟩]⟩
  | .notFoundSentinel => ⟨404, .errors [⟨"record not found", none⟩]⟩
  | e => ⟨500, .errors [⟨errMessage e, none⟩]⟩

/-- The inline get-one handler (src/index.js lines 175-190): build the
query, call `findOne`; a null result raises the not-found sentinel, a
record is wrapped in the envelope with status 200. -/
def getOneHandler (pluralize : String → String) (model : Model) (options : Options)
    (req : Req) (findRes : StorageResult (Option Record)) : Response × List StorageCall :=
  let q := (buildWhere .GET req options).1
  match findRes with
  | .ok none => (getCatch .notFoundSentinel, [.findOne q])
  | .ok (some r) =>
    let p := formatOutput pluralize (.one r) model options
    (⟨200, .envelope p.1 p.2⟩, [.findOne q])
  | .fail e => (getCatch e, [.findOne q])

/-- The inline create handler (src/index.js lines 194-221): call `create`
with the body record and the built query; on success the envelope is sent
with status 200 (line 201 of the source sends 200, not 201). -/
def postHandler (pluralize : String → String) (model : Model) (options : Options)
    (req : Req) (createRes : StorageResult Record) : Response × List StorageCall :=
  let q := (buildWhere .POST req options).1
  let input := (lookupStr req.body model.name).getD []
  match createRes with
  | .ok r =>
    let p := formatOutput pluralize (.one r) model options
    (⟨200, .envelope p.1 p.2⟩, [.create input q])
  | .fail e => (createCatch e, [.create input q])

/-- The primary-key guard of the update handler (src/index.js lines
228-240, duplicated verbatim in LibHandlers.updateRecord lines 74-86):
with `allowChangingPrimaryKey` not true, a (truthy) primary-key field and
a defined body value for it, the request is rejected when the path id and
the body value are loosely unequal (JavaScript `!=`).  The handlers read
`req.body[model.name]` unconditionally, presupposing that the body carries
the model key; a missing key is modelled as the empty record. -/
def pkGuardRejects (model : Model) (req : Req) (options : Options) : Bool :=
  if options.allowChangingPrimaryKey = true then false
  else
    match model.primaryKeyField with
    | none => false
    | some pk =>
      if pk = "" then false
      else
        let v := jsField ((lookupStr req.body model.name).getD []) pk
        if v = .undef then false
        else !looseEq (jsOfParam req.paramsId) v

/-- The inline update handler (src/index.js lines 225-289): the
primary-key guard responds 422 before any storage call; otherwise
`findOne` with the built query, then the body fields are applied to the
record and `save` is called; a null find raises the not-found sentinel. -/
def putHandler (pluralize : String → String) (model : Model) (options : Options)
    (req : Req) (findRes : StorageResult (Option Record))
    (saveRes : StorageResult Record) : Response × List StorageCall :=
  if pkGuardRejects model req options then
    (⟨422, .errors [⟨"cannot change record primary key", model.primaryKeyField⟩]⟩, [])
  else
    let q := (buildWhere .PUT req options).1
    let input := (lookupStr req.body model.name).getD []
    match findRes with
    | .ok none => (putCatch .notFoundSentinel, [.findOne q])
    | .ok (some r) =>
      let r' := applyFields r input
      match saveRes with
      | .ok saved =>
        let p := formatOutput pluralize (.one saved) model options
        (⟨200, .envelope p.1 p.2⟩, [.findOne q, .save r'])
      | .fail e => (putCatch e, [.findOne q, .save r'])
    | .fail e => (putCatch e, [.findOne q])

/-- The inline delete handler (src/index.js lines 293-313): `destroy` with
the built query; an affected count different from 1 raises the not-found
sentinel (this check is live here, unlike in LibHandlers.deleteRecord
where it is commented out). -/
def deleteHandler (options : Options) (req : Req)
    (destroyRes : StorageResult Nat) : Response × List StorageCall :=
  let q := (buildWhere .DELETE req options).1
  match destroyRes with
  | .ok affected =>
    if affected ≠ 1 then (deleteCatch .notFoundSentinel, [.destroy q])
    else (⟨200, .statusOk⟩, [.destroy q])
  | .fail e => (deleteCatch e, [.destroy q])

namespace LibHandlers

/-- Modelled from the spec: the handlers module (src/unnamed/part_000)
delegates all error responses to a `handleRequestError` helper from a
`utils` module whose source is not among the provided files (only its
callers are).  Per the error-taxonomy table of the spec (section 4.3):
NotFound maps to 404, validation and unique-constraint failures to 422
with one `{message, field}` entry per violation, foreign-key violations to
400 with a fixed message, database errors to 422 with the message, and
anything else to a generic 500. -/
def handleRequestError : StorageError → Response
  | .notFoundSentinel => ⟨404, .errors [⟨"record not found", none⟩]⟩
  | .validation _ vs => ⟨422, .errors (vs.map violationEntry)⟩
  | .unique _ vs => ⟨422, .errors (vs.map violationEntry)⟩
  | .foreignKey _ => ⟨400, .errors [⟨"foreign key constraint error", none⟩]⟩
  | .database m => ⟨422, .errors [⟨m, none⟩]⟩
  | .other m => ⟨500, .errors [⟨m, none⟩]⟩

/-- `findOne` of the handlers module (part_000 lines 16-24): a null result
raises the not-found sentinel, a record yields the envelope with 200. -/
def findOne (pluralize : String → String) (model : Model) (query : Query)
    (options : Options) (findRes : StorageResult (Option Record)) :
    Response × List StorageCall :=
  match findRes with
  | .ok none => (handleRequestError .notFoundSentinel, [.findOne query])
  | .ok (some r) =>
    let p := formatOutput pluralize (.one r) model options
    (⟨200, .envelope p.1 p.2⟩, [.findOne query])
  | .fail e => (handleRequestError e, [.findOne query])

/-- `createRecord` of the handlers module (part_000 lines 55-60): on
success the envelope is sent with status 201 (the `afterCreate` hook only
has caller-side effects and is elided). -/
def createRecord (pluralize : String → String) (model : Model) (query : Query)
    (input : List (String × JsVal)) (options : Options)
    (createRes : StorageResult Record) : Response × List StorageCall :=
  match createRes with
  | .ok r =>
    let p := formatOutput pluralize (.one r) model options
    (⟨201, .envelope p.1 p.2⟩, [.create input query])
  | .fail e => (handleRequestError e, [.create input query])

/-- `updateRecord` of the handlers module (part_000 lines 73-104): the
primary-key guard (lines 74-86, identical to the inline one) responds 422
before any storage call; otherwise `findOne`, apply the `input` fields,
`save`. -/
def updateRecord (pluralize : String → String) (model : Model) (query : Query)
    (input : List (String × JsVal)) (req : Req) (options : Options)
    (findRes : StorageResult (Option Record)) (saveRes : StorageResult Record) :
    Response × List StorageCall :=
  if pkGuardRejects model req options then
    (⟨422, .errors [⟨"cannot change record primary key", model.primaryKeyField⟩]⟩, [])
  else
    match findRes with
    | .ok none => (handleRequestError .notFoundSentinel, [.findOne query])
    | .ok (some r) =>
      let r' := applyFields r input
      match saveRes with
      | .ok saved =>
        let p := formatOutput pluralize (.one saved) model options
        (⟨200, .envelope p.1 p.2⟩, [.findOne query, .save r'])
      | .fail e => (handleRequestError e, [.findOne query, .save r'])
    | .fail e => (handleRequestError e, [.findOne query])

/-- `deleteRecord` of the handlers module (part_000 lines 115-123): the
affected-count check is commented out in the source, so any resolved
`destroy` yields 200 with the status acknowledgement. -/
def deleteRecord (query : Query) (destroyRes : StorageResult Nat) :
    Response × List StorageCall :=
  match destroyRes with
  | .ok _affected => (⟨200, .statusOk⟩, [.destroy query])
  | .fail e => (handleRequestError e, [.destroy query])

end LibHandlers

/-- The four route groups the controller factory can register. -/
inductive RouteGroup where
  | getRoutes
  | putRoutes
  | postRoutes
  | deleteRoutes
deriving DecidableEq

/-- Errors surfacing synchronously from `createController`: the invalid
model `TypeError` and the JavaScript `ReferenceError` raised by reading an
unbound identifier. -/
inductive JsError where
  | invalidModel
  | referenceError
deriving DecidableEq

/-- Caller-supplied configuration overrides: each recognized option is
either absent (the default applies) or supplied (`Object.assign`
replaces the whole value). -/
structure UserOptions where
  allowChangingPrimaryKey : Option Bool
  includeRelationsInGetAll : Option Bool
  disableBodyParser : Option Bool
  overrideOutputName : Option (Option String)
  limit : Option (Option Int)
  restrictedFields : Option (List String)
  relationships : Option (List String)
  handlers : Option HandlerFlags
  useLike : Option Bool
  hooksBeforeQuery : Option (Option (Query → Req → Query))

/-- A caller passing no overrides. -/
def emptyUserOptions : UserOptions :=
  ⟨none, none, none, none, none, none, none, none, none, none⟩

/-- The `Object.assign` defaults merge of `createController` (src/index.js
lines 117-136).  The source writes the `handlers` default with array
brackets around object entries, which is a JavaScript syntax error; it is
modelled here as the object map it plainly intends, with every flag
defaulting to true. -/
def mergeOptions (u : UserOptions) : Options :=
  { allowChangingPrimaryKey := u.allowChangingPrimaryKey.getD false
    includeRelationsInGetAll := u.includeRelationsInGetAll.getD false
    disableBodyParser := u.disableBodyParser.getD false
    overrideOutputName := u.overrideOutputName.getD none
    limit := u.limit.getD none
    restrictedFields := u.restrictedFields.getD []
    relationships := u.relationships.getD []
    handlers := u.handlers.getD ⟨true, true, true, true⟩
    useLike := u.useLike.getD true
    hooksBeforeQuery := u.hooksBeforeQuery.getD none }

/-- The controller factory (src/index.js lines 109-317), modelled up to
route registration.  It validates the model, merges the options, applies
the postgres dialect override for `useLike`, and then registers route
groups guarded by the handler flags.  The get group is guarded by
`options.handlers.get` (line 157), but the post, put and delete groups are
guarded by `req.handlers.post`, `req.handlers.put` and
`req.handlers.delete` (lines 193, 224, 292) where `req` is not bound in
the factory scope, so evaluation raises a ReferenceError at line 193 on
every invocation that reaches it. -/
def createController (model : Model) (u : UserOptions) :
    Except JsError (List RouteGroup) := do
  if model.isSequelizeModel = false then
    throw .invalidModel
  let options := mergeOptions u
  let options :=
    if model.dialect = some "postgres" then { options with useLike := false }
    else options
  let routes := if options.handlers.get = true then [RouteGroup.getRoutes] else []
  let postGate ← (throw .referenceError : Except JsError Bool)
  let routes := if postGate then routes ++ [RouteGroup.postRoutes] else routes
  pure routes

/-- Concrete pluralization used by the closed witnesses (the external
inflection helper only matters through which branch of `formatOutput`
runs). -/
def pluralizeS (s : String) : String := s ++ "s"

/-- A demo model named `post` with primary key `id`, like the one in the
repository test suite. -/
def postModel : Model := ⟨"post", some "id", true, none⟩

/-- The merged configuration with all defaults. -/
def baseOptions : Options :=
  ⟨false, false, false, none, none, [], [], ⟨true, true, true, true⟩, true, none⟩

/-- Empty query-string parameters. -/
def emptyQP : QueryParams := ⟨none, none, [], [], none⟩

/-- An empty record. -/
def emptyRecord : Record := ⟨[]⟩

/-- A PUT request to path id 1 whose body supplies the primary key as the
string "2": loosely different from the path id. -/
def reqPutBad : Req :=
  ⟨some "1", emptyQP, [("post", [("id", .str "2"), ("title", .str "T")])]⟩

/-- A PUT request to path id 1 whose body supplies the primary key as the
number 1: a different type that is loosely equal to the path id. -/
def reqPutNum : Req :=
  ⟨some "1", emptyQP, [("post", [("id", .num 1), ("title", .str "T")])]⟩

/-- A POST request creating a post titled X. -/
def reqCreate : Req := ⟨none, emptyQP, [("post", [("title", .str "X")])]⟩

/-- A record as the storage layer would return it for the created post. -/
def recX : Record := ⟨[("id", .num 7), ("title", .str "X")]⟩

/-- A DELETE request for path id 1. -/
def reqDel : Req := ⟨some "1", emptyQP, []⟩

/-- A GET request whose `attributes` parameter parsed to an object (for
example from `attributes[x]=1`), a value without a `split` method. -/
def reqMal : Req :=
  ⟨none, ⟨none, none, [], [], some (.vobj [("x", "1")])⟩, []⟩

/-- A GET request with the well-formed projection list `attributes=a,b`. -/
def reqAttrs : Req :=
  ⟨none, ⟨none, none, [], [], some (.vstr "a,b")⟩, []⟩

/-- A GET request carrying `search[title]=abc`. -/
def reqSearch : Req :=
  ⟨none, ⟨none, none, [], [("title", "abc")], none⟩, []⟩

/-- A demo violation list as reported inside a storage validation or
unique-constraint error. -/
def vsDemo : List Violation := [⟨"email must be unique", "email"⟩]

/-! Helper lemmas about object assignment, lookup and the builder steps. -/

theorem lookupStr_objSet_self {α : Type _} (l : List (String × α)) (k : String) (v : α) :
    lookupStr (objSet l k v) k = some v := by
  induction l with
  | nil => simp [objSet, lookupStr]
  | cons hd tl ih =>
    obtain ⟨k₀, v₀⟩ := hd
    by_cases h : k₀ = k <;> simp [objSet, lookupStr, h, ih]

theorem lookupStr_objSet_ne {α : Type _} (l : List (String × α)) (k k' : String) (v : α)
    (h : k' ≠ k) : lookupStr (objSet l k v) k' = lookupStr l k' := by
  have h2 : ¬ (k = k') := fun hh => h hh.symm
  induction l with
  | nil => simp [objSet, lookupStr, h2]
  | cons hd tl ih =>
    obtain ⟨k₀, v₀⟩ := hd
    by_cases h0 : k₀ = k
    · subst h0
      simp [objSet, lookupStr, h2]
    · by_cases h1 : k₀ = k' <;> simp [objSet, lookupStr, h0, h1, h, ih]

theorem lookupStr_fold_objSet_notMem {α β : Type _} (ps : List (String × β)) (g : β → α)
    (init : List (String × α)) (f : String) (h : ∀ p ∈ ps, p.1 ≠ f) :
    lookupStr (ps.foldl (fun acc p => objSet acc p.1 (g p.2)) init) f = lookupStr init f := by
  induction ps generalizing init with
  | nil => rfl
  | cons hd tl ih =>
    obtain ⟨k₀, w₀⟩ := hd
    have hk : k₀ ≠ f := h (k₀, w₀) (by simp)
    rw [List.foldl_cons, ih _ (fun p hp => h p (List.mem_cons_of_mem _ hp))]
    exact lookupStr_objSet_ne _ _ _ _ (Ne.symm hk)

theorem lookupStr_fold_objSet_mem {α β : Type _} (ps : List (String × β)) (g : β → α)
    (init : List (String × α)) (f : String) (v : β)
    (hm : (f, v) ∈ ps) (hnd : (ps.map Prod.fst).Nodup) :
    lookupStr (ps.foldl (fun acc p => objSet acc p.1 (g p.2)) init) f = some (g v) := by
  induction ps generalizing init with
  | nil => cases hm
  | cons hd tl ih =>
    obtain ⟨k₀, w₀⟩ := hd
    rw [List.map_cons, List.nodup_cons] at hnd
    rw [List.foldl_cons]
    rcases List.mem_cons.mp hm with heq | hmem
    · cases heq
      have hnotin : ∀ p ∈ tl, p.1 ≠ f := fun p hp hh =>
        hnd.1 (List.mem_map.mpr ⟨p, hp, hh⟩)
      rw [lookupStr_fold_objSet_notMem tl g _ f hnotin, lookupStr_objSet_self]
    · exact ih _ hmem hnd.2

theorem applyLimit_whereConds (req : Req) (options : Options) (q : Query) :
    (applyLimit req options q).whereConds = q.whereConds := by
  unfold applyLimit
  split
  · rfl
  · split <;> rfl

theorem applyOffset_whereConds (req : Req) (q : Query) :
    (applyOffset req q).whereConds = q.whereConds := by
  unfold applyOffset
  split <;> rfl

theorem applyAttributes_fst_whereConds (req : Req) (q : Query) :
    ((applyAttributes req q).1).whereConds = q.whereConds := by
  unfold applyAttributes
  split
  · split <;> rfl
  · rfl

theorem applyHook_none (options : Options) (q : Query) (req : Req)
    (h : options.hooksBeforeQuery = none) : applyHook options q req = q := by
  unfold applyHook
  rw [h]

theorem buildWhere_GET_eq (req : Req) (options : Options) :
    buildWhere .GET req options =
      (applyHook options
        (applyGet req options (applyIdWhere req (initQuery options))).1
        (applyGet req options (applyIdWhere req (initQuery options))).2,
       (applyGet req options (applyIdWhere req (initQuery options))).2) := rfl

/-! Claim theorems. -/

/-- Claim C1: for every update (PUT) request where `allowChangingPrimaryKey`
is false, the model has a (truthy) primary-key field, and the request body
supplies a primary-key value that differs from the path id, both the inline
update handler of index.js and `updateRecord` of the handlers module
respond 422 and issue no storage call (findOne/save) at all. -/
theorem c1_put_pk_guard_rejects_before_storage
    (pl : String → String) (model : Model) (options : Options) (req : Req)
    (query : Query) (input : List (String × JsVal))
    (findRes : StorageResult (Option Record)) (saveRes : StorageResult Record)
    (pk : String)
    (h1 : options.allowChangingPrimaryKey = false)
    (h2 : model.primaryKeyField = some pk) (h2' : pk ≠ "")
    (h3 : jsField ((lookupStr req.body model.name).getD []) pk ≠ .undef)
    (h4 : looseEq (jsOfParam req.paramsId)
            (jsField ((lookupStr req.body model.name).getD []) pk) = false) :
    putHandler pl model options req findRes saveRes =
      (⟨422, .errors [⟨"cannot change record primary key", model.primaryKeyField⟩]⟩, []) ∧
    LibHandlers.updateRecord pl model query input req options findRes saveRes =
      (⟨422, .errors [⟨"cannot change record primary key", model.primaryKeyField⟩]⟩, []) := by
  have hpk : pkGuardRejects model req options = true := by
    simp [pkGuardRejects, h1, h2, h2', h3, h4]
  constructor
  · simp [putHandler, hpk]
  · simp [LibHandlers.updateRecord, hpk]

theorem c1_put_pk_guard_rejects_before_storage_witness :
    baseOptions.allowChangingPrimaryKey = false ∧
    postModel.primaryKeyField = some "id" ∧
    "id" ≠ "" ∧
    jsField ((lookupStr reqPutBad.body postModel.name).getD []) "id" ≠ .undef ∧
    looseEq (jsOfParam reqPutBad.paramsId)
      (jsField ((lookupStr reqPutBad.body postModel.name).getD []) "id") = false ∧
    (putHandler pluralizeS postModel baseOptions reqPutBad (.ok none) (.ok emptyRecord) =
      (⟨422, .errors [⟨"cannot change record primary key", postModel.primaryKeyField⟩]⟩, []) ∧
     LibHandlers.updateRecord pluralizeS postModel (buildWhere .PUT reqPutBad baseOptions).1
       [("id", .str "2"), ("title", .str "T")] reqPutBad baseOptions (.ok none) (.ok emptyRecord) =
      (⟨422, .errors [⟨"cannot change record primary key", postModel.primaryKeyField⟩]⟩, [])) :=
  ⟨rfl, rfl, by decide, by decide, by decide,
   c1_put_pk_guard_rejects_before_storage pluralizeS postModel baseOptions reqPutBad
     (buildWhere .PUT reqPutBad baseOptions).1 [("id", .str "2"), ("title", .str "T")]
     (.ok none) (.ok emptyRecord) "id" rfl rfl (by decide) (by decide) (by decide)⟩

/-- Claim C2 (code divergence): on a create request accepted by the storage
layer, the inline POST handler of index.js responds with status 200, not
the 201 the claim states, while `createRecord` of the handlers module
responds 201 with the envelope keyed by the singular model name. -/
theorem c2_create_status_divergence :
    (postHandler pluralizeS postModel baseOptions reqCreate (.ok recX)).1.status = 200 ∧
    (postHandler pluralizeS postModel baseOptions reqCreate (.ok recX)).1.status ≠ 201 ∧
    LibHandlers.createRecord pluralizeS postModel (buildWhere .POST reqCreate baseOptions).1
      [("title", .str "X")] baseOptions (.ok recX) =
      (⟨201, .envelope "post" (.one recX)⟩,
       [.create [("title", .str "X")] (buildWhere .POST reqCreate baseOptions).1]) :=
  ⟨rfl, by decide, rfl⟩

/-- Claim C3 (counterexample): a delete request whose destroy call resolves
with 0 affected rows gets a 404 from the inline delete handler of index.js,
refuting "status 200 regardless of the affected-row count". -/
theorem c3_delete_not_found_counterexample :
    (deleteHandler baseOptions reqDel (.ok 0)).1.status = 404 ∧
    (deleteHandler baseOptions reqDel (.ok 0)).1.status ≠ 200 :=
  ⟨rfl, by decide⟩

/-- Claim C3 (amended): `deleteRecord` of the handlers module responds 200
with the status acknowledgement for every resolved destroy, whatever the
affected count (so repeating the same delete yields 200 both times); the
inline index.js delete handler instead responds 200 only when exactly one
row was affected and 404 otherwise. -/
theorem c3_delete_affected_behavior (query : Query) (affected : Nat)
    (options : Options) (req : Req) :
    LibHandlers.deleteRecord query (.ok affected) =
      (⟨200, .statusOk⟩, [.destroy query]) ∧
    (deleteHandler options req (.ok affected)).1 =
      (if affected = 1 then ⟨200, .statusOk⟩
       else ⟨404, .errors [⟨"record not found", none⟩]⟩) := by
  constructor
  · rfl
  · by_cases h : affected = 1 <;> simp [deleteHandler, deleteCatch, h]

/-- Claim C4: a get-one request whose findOne resolves with no record
yields status 404 and a non-empty errors array. -/
theorem c4_get_one_missing_404 (pl : String → String) (model : Model)
    (options : Options) (req : Req) :
    (getOneHandler pl model options req (.ok none)).1.status = 404 ∧
    bodyErrors (getOneHandler pl model options req (.ok none)).1.body ≠ [] := by
  constructor
  · rfl
  · simp [getOneHandler, getCatch, bodyErrors]

/-- Claim C5: when the storage layer fails a create or an update with a
validation or unique-constraint error, the response is 422 and its errors
array has one `{message, field}` entry per reported violation (for update,
both a failing findOne and a failing save are covered; the primary-key
guard is assumed not to fire, otherwise the storage layer is never
reached). -/
theorem c5_validation_unique_422
    (pl : String → String) (model : Model) (options : Options) (req : Req)
    (m : String) (vs : List Violation) (r : Record)
    (hguard : pkGuardRejects model req options = false) :
    (postHandler pl model options req (.fail (.validation m vs))).1 =
      ⟨422, .errors (vs.map violationEntry)⟩ ∧
    (postHandler pl model options req (.fail (.unique m vs))).1 =
      ⟨422, .errors (vs.map violationEntry)⟩ ∧
    (putHandler pl model options req (.fail (.validation m vs)) (.ok r)).1 =
      ⟨422, .errors (vs.map violationEntry)⟩ ∧
    (putHandler pl model options req (.fail (.unique m vs)) (.ok r)).1 =
      ⟨422, .errors (vs.map violationEntry)⟩ ∧
    (putHandler pl model options req (.ok (some r)) (.fail (.validation m vs))).1 =
      ⟨422, .errors (vs.map violationEntry)⟩ ∧
    (putHandler pl model options req (.ok (some r)) (.fail (.unique m vs))).1 =
      ⟨422, .errors (vs.map violationEntry)⟩ := by
  refine ⟨rfl, rfl, ?_, ?_, ?_, ?_⟩ <;> simp [putHandler, hguard, putCatch]

theorem c5_validation_unique_422_witness :
    pkGuardRejects postModel reqCreate baseOptions = false ∧
    ((postHandler pluralizeS postModel baseOptions reqCreate
        (.fail (.validation "Validation error" vsDemo))).1 =
      ⟨422, .errors (vsDemo.map violationEntry)⟩ ∧
     (postHandler pluralizeS postModel baseOptions reqCreate
        (.fail (.unique "Validation error" vsDemo))).1 =
      ⟨422, .errors (vsDemo.map violationEntry)⟩ ∧
     (putHandler pluralizeS postModel baseOptions reqCreate
        (.fail (.validation "Validation error" vsDemo)) (.ok recX)).1 =
      ⟨422, .errors (vsDemo.map violationEntry)⟩ ∧
     (putHandler pluralizeS postModel baseOptions reqCreate
        (.fail (.unique "Validation error" vsDemo)) (.ok recX)).1 =
      ⟨422, .errors (vsDemo.map violationEntry)⟩ ∧
     (putHandler pluralizeS postModel baseOptions reqCreate
        (.ok (some recX)) (.fail (.validation "Validation error" vsDemo))).1 =
      ⟨422, .errors (vsDemo.map violationEntry)⟩ ∧
     (putHandler pluralizeS postModel baseOptions reqCreate
        (.ok (some recX)) (.fail (.unique "Validation error" vsDemo))).1 =
      ⟨422, .errors (vsDemo.map violationEntry)⟩) :=
  ⟨by decide,
   c5_validation_unique_422 pluralizeS postModel baseOptions reqCreate
     "Validation error" vsDemo recX (by decide)⟩

/-- Claim C9 (code divergence): constructing a controller with any valid
model raises a ReferenceError before the put, post and delete groups can
be registered, because their gates read the unbound `req.handlers`; the
merged default handler flags are all true as the claim states. -/
theorem c9_controller_construction_reference_error :
    createController postModel emptyUserOptions = .error .referenceError ∧
    (mergeOptions emptyUserOptions).handlers = ⟨true, true, true, true⟩ ∧
    postModel.isSequelizeModel = true :=
  ⟨rfl, rfl, rfl⟩

/-- Claim C10: the primary-key guard compares the path id and the body
primary key with JavaScript loose equality, so a body value of number type
that coerces equal to the string path id is not rejected and both update
handlers proceed to the findOne storage call. -/
theorem c10_pk_guard_loose_equality
    (pl : String → String) (model : Model) (options : Options) (req : Req)
    (query : Query) (input : List (String × JsVal))
    (findRes : StorageResult (Option Record)) (saveRes : StorageResult Record)
    (pk s : String) (n : Int)
    (h1 : options.allowChangingPrimaryKey = false)
    (h2 : model.primaryKeyField = some pk)
    (h3 : jsField ((lookupStr req.body model.name).getD []) pk = .num n)
    (h4 : req.paramsId = some s)
    (h5 : strToInt s = some n) :
    pkGuardRejects model req options = false ∧
    (putHandler pl model options req findRes saveRes).2.head? =
      some (.findOne (buildWhere .PUT req options).1) ∧
    (LibHandlers.updateRecord pl model query input req options findRes saveRes).2.head? =
      some (.findOne query) := by
  have hpk : pkGuardRejects model req options = false := by
    by_cases h0 : pk = ""
    · simp [pkGuardRejects, h1, h2, h0]
    · simp [pkGuardRejects, h1, h2, h0, h3, h4, jsOfParam, looseEq, h5]
  refine ⟨hpk, ?_, ?_⟩
  · cases findRes with
    | ok o =>
      cases o with
      | none => simp [putHandler, hpk]
      | some r => cases saveRes <;> simp [putHandler, hpk]
    | fail e => simp [putHandler, hpk]
  · cases findRes with
    | ok o =>
      cases o with
      | none => simp [LibHandlers.updateRecord, hpk]
      | some r => cases saveRes <;> simp [LibHandlers.updateRecord, hpk]
    | fail e => simp [LibHandlers.updateRecord, hpk]

theorem c10_pk_guard_loose_equality_witness :
    baseOptions.allowChangingPrimaryKey = false ∧
    postModel.primaryKeyField = some "id" ∧
    jsField ((lookupStr reqPutNum.body postModel.name).getD []) "id" = .num 1 ∧
    reqPutNum.paramsId = some "1" ∧
    strToInt "1" = some 1 ∧
    (pkGuardRejects postModel reqPutNum baseOptions = false ∧
     (putHandler pluralizeS postModel baseOptions reqPutNum (.ok none) (.ok emptyRecord)).2.head? =
       some (.findOne (buildWhere .PUT reqPutNum baseOptions).1) ∧
     (LibHandlers.updateRecord pluralizeS postModel (buildWhere .PUT reqPutNum baseOptions).1
        [("id", .num 1), ("title", .str "T")] reqPutNum baseOptions
        (.ok none) (.ok emptyRecord)).2.head? =
       some (.findOne (buildWhere .PUT reqPutNum baseOptions).1)) :=
  ⟨rfl, rfl, by decide, rfl, by decide,
   c10_pk_guard_loose_equality pluralizeS postModel baseOptions reqPutNum
     (buildWhere .PUT reqPutNum baseOptions).1 [("id", .num 1), ("title", .str "T")]
     (.ok none) (.ok emptyRecord) "id" "1" 1 rfl rfl (by decide) rfl (by decide)⟩

theorem applyAttributes_fst_attributes (req : Req) (q : Query) (v : AttrVal)
    (ha : req.query.attributes = some v) (ht : attrTruthyVal v = true) :
    (applyAttributes req q).1.attributes = some ((trySplit v).getD v) := by
  unfold applyAttributes
  split
  next v' heq =>
    rw [ha] at heq
    injection heq with hv
    subst hv
    simp [ht]
  next heq =>
    rw [ha] at heq
    cases heq

/-- Claim C6: a GET request carrying `search[field]=value` produces a
pattern-match constraint on that field over `%value%`, with the `$like`
operator when `useLike` is true and `$iLike` otherwise (stated for the
descriptor as built, i.e. without a `beforeQuery` hook; the parsed search
object has each field at most once, whence the Nodup hypothesis). -/
theorem c6_search_like_pattern (req : Req) (options : Options) (f v : String)
    (hhook : options.hooksBeforeQuery = none)
    (hmem : (f, v) ∈ req.query.search)
    (hnd : (req.query.search.map Prod.fst).Nodup) :
    lookupStr (buildWhere .GET req options).1.whereConds f =
      some (if options.useLike = true then WhereCond.like ("%" ++ v ++ "%")
            else WhereCond.iLike ("%" ++ v ++ "%")) := by
  have hgoal : (buildWhere .GET req options).1.whereConds =
      req.query.search.foldl (fun acc p => objSet acc p.1 (searchCond options p.2))
        ((applyFilter req (applyOffset req (applyLimit req options
          (applyIdWhere req (initQuery options))))).whereConds) := by
    show (applyHook options
        (applyGet req options (applyIdWhere req (initQuery options))).1
        (applyGet req options (applyIdWhere req (initQuery options))).2).whereConds = _
    rw [applyHook_none _ _ _ hhook]
    show ((applyAttributes req (applySearch req options (applyFilter req (applyOffset req
      (applyLimit req options (applyIdWhere req (initQuery options))))))).1).whereConds = _
    rw [applyAttributes_fst_whereConds]
    rfl
  rw [hgoal]
  have key := lookupStr_fold_objSet_mem req.query.search
    (fun w : String => searchCond options w)
    ((applyFilter req (applyOffset req (applyLimit req options
      (applyIdWhere req (initQuery options))))).whereConds) f v hmem hnd
  simpa [searchCond] using key

theorem c6_search_like_pattern_witness :
    baseOptions.hooksBeforeQuery = none ∧
    ("title", "abc") ∈ reqSearch.query.search ∧
    (reqSearch.query.search.map Prod.fst).Nodup ∧
    lookupStr (buildWhere .GET reqSearch baseOptions).1.whereConds "title" =
      some (if baseOptions.useLike = true then WhereCond.like ("%" ++ "abc" ++ "%")
            else WhereCond.iLike ("%" ++ "abc" ++ "%")) :=
  ⟨rfl, by decide, by decide,
   c6_search_like_pattern reqSearch baseOptions "title" "abc" rfl (by decide) (by decide)⟩

/-- Claim C7 (counterexample): a GET request whose `attributes` value is
malformed (an object, so `split` throws) does not fall back to "no
projection": the descriptor still carries the unsplit malformed value as
its attributes projection. -/
theorem c7_attributes_passthrough_counterexample :
    (buildWhere .GET reqMal baseOptions).1.attributes = some (.vobj [("x", "1")]) ∧
    (buildWhere .GET reqMal baseOptions).1.attributes ≠ none :=
  ⟨rfl, by decide⟩

/-- Claim C7 (amended): a present, truthy `attributes` value always ends up
on the descriptor: a well-formed string becomes the comma-split projection
list, while a malformed value (on which `split` throws) is silently passed
through unsplit, so the descriptor still carries an attributes entry
rather than no projection (stated without a `beforeQuery` hook). -/
theorem c7_attributes_passthrough (req : Req) (options : Options) (v : AttrVal)
    (hhook : options.hooksBeforeQuery = none)
    (ha : req.query.attributes = some v) (ht : attrTruthyVal v = true) :
    (buildWhere .GET req options).1.attributes = some ((trySplit v).getD v) ∧
    (trySplit v = none → (buildWhere .GET req options).1.attributes = some v) ∧
    (∀ s, v = .vstr s → (buildWhere .GET req options).1.attributes =
      some (.varr (splitComma s))) := by
  have hmain : (buildWhere .GET req options).1.attributes = some ((trySplit v).getD v) := by
    show (applyHook options
        (applyGet req options (applyIdWhere req (initQuery options))).1
        (applyGet req options (applyIdWhere req (initQuery options))).2).attributes = _
    rw [applyHook_none _ _ _ hhook]
    exact applyAttributes_fst_attributes req _ v ha ht
  refine ⟨hmain, ?_, ?_⟩
  · intro hns
    rw [hmain, hns]
    rfl
  · intro s hs
    subst hs
    rw [hmain]
    rfl

theorem c7_attributes_passthrough_witness :
    baseOptions.hooksBeforeQuery = none ∧
    reqMal.query.attributes = some (.vobj [("x", "1")]) ∧
    attrTruthyVal (.vobj [("x", "1")]) = true ∧
    ((buildWhere .GET reqMal baseOptions).1.attributes =
       some ((trySplit (.vobj [("x", "1")])).getD (.vobj [("x", "1")])) ∧
     (trySplit (.vobj [("x", "1")]) = none →
       (buildWhere .GET reqMal baseOptions).1.attributes = some (.vobj [("x", "1")])) ∧
     (∀ s, AttrVal.vobj [("x", "1")] = .vstr s →
       (buildWhere .GET reqMal baseOptions).1.attributes = some (.varr (splitComma s)))) :=
  ⟨rfl, rfl, rfl,
   c7_attributes_passthrough reqMal baseOptions (.vobj [("x", "1")]) rfl rfl rfl⟩

/-- Claim C8 (counterexample): the query builder is not free of side
effects on the request: on a GET request with `attributes=a,b` it
overwrites `req.query.attributes` with the split list, so the request it
leaves behind differs from the one it received. -/
theorem c8_buildWhere_mutates_request_counterexample :
    (buildWhere .GET reqAttrs baseOptions).2 ≠ reqAttrs ∧
    (buildWhere .GET reqAttrs baseOptions).2.query.attributes =
      some (.varr ["a", "b"]) :=
  ⟨by decide, rfl⟩

/-- Claim C8 (amended): the builder never touches the configuration, and
the only request mutation it performs is on GET with a present truthy
`attributes` value, where `req.query.attributes` is overwritten with the
split result (the unsplit value itself when `split` throws, leaving the
request observably unchanged); for every other method or request the
request comes back exactly as received. -/
theorem c8_buildWhere_request_effect (method : Method) (req : Req) (options : Options) :
    (buildWhere method req options).2 =
      (if method = .GET then
        (match req.query.attributes with
         | some v =>
           if attrTruthyVal v then
             { req with query := { req.query with attributes := some ((trySplit v).getD v) } }
           else req
         | none => req)
       else req) := by
  cases method
  case GET =>
    show (applyAttributes req (applySearch req options (applyFilter req (applyOffset req
      (applyLimit req options (applyIdWhere req (initQuery options))))))).2 = _
    unfold applyAttributes
    split
    next v _heq =>
      by_cases hc : attrTruthyVal v <;> simp [hc]
    next _heq =>
      rfl
  all_goals rfl
